import Mathlib

/-!
Verification development for `container_map` (`src/main.py`).

The program is a key-value store whose values live in Docker containers:
a process-wide registry maps keys to container handles, a callback context
manager brackets volume access with `unpause`/`pause`, and a controller
pickles values to a single shared host volume file bind-mounted into every
container.

Shallow embedding conventions:
  * `St` is the program state: the registry association list
    (`_ContainerRegistry._registry`, a class-level dict with unique keys,
    kept in insertion order), the store of live containers with their
    paused flag, the allocator counter for fresh container identities,
    the shared volume file contents, and a trace of runtime-adapter calls.
  * Exceptions are modelled with `Except PyErr`; an operation returns its
    `Except` result together with the state it leaves behind, since Python
    state mutations persist when an exception propagates.
  * The Docker adapter's fallible calls are driven by a fault schedule
    `Nat → Faults` indexed by container identity: `unpauseFails` makes
    `container.unpause()` raise (leaving the container's state unchanged),
    `removeFails` makes `container.remove(force=True)` raise.  `pause` and
    container creation are modelled as infallible, and a failed call is a
    no-op on container state.  Serialization faults come from the value
    itself: `pickle.dump` fails exactly on non-picklable values, and
    `pickle.load` fails on an empty or partially written volume.
  * `print` calls are not modelled.
-/

set_option autoImplicit false

namespace ContainerMap

/-- Keys of the map (`typing.Hashable` in the source; strings suffice for
the embedding since only equality is used). -/
abbrev Key := String

/-- A stored value.  `data` is the abstract payload identity; `picklable`
records whether `pickle.dump` succeeds on the value (pickling fails on
values such as open file handles, lambdas, generators). -/
structure Val where
  data : Nat
  picklable : Bool
deriving DecidableEq, Repr

/-- Python exceptions distinguished by the program paths under study. -/
inductive PyErr where
  /-- `ContainerRegistryError(msg)` raised by `block_container_for_ctx`. -/
  | containerRegistryError (msg : String)
  /-- Python `KeyError` from indexing `self._registry[c_key]` on a missing key. -/
  | keyError
  /-- Docker API error raised by `container.unpause()`. -/
  | dockerUnpauseError
  /-- Docker API error raised by `container.remove(force=True)`. -/
  | dockerRemoveError
  /-- `pickle.dump` failed on an unpicklable value. -/
  | picklingError
  /-- `pickle.load` failed (empty or partially written volume file). -/
  | unpicklingError
deriving DecidableEq, Repr

/-- Whether an exception is the program's own `ContainerRegistryError`. -/
def PyErr.isRegistryError : PyErr → Bool
  | .containerRegistryError _ => true
  | _ => false

/-- Contents of the shared volume file `.vol`. -/
inductive Volume where
  /-- Empty file (as created/truncated by the controller constructor). -/
  | empty
  /-- Truncated or partially written contents after a failed `pickle.dump`. -/
  | corrupt
  /-- A successfully pickled value; `pickle.load` round-trips it. -/
  | stored (v : Val)
deriving DecidableEq, Repr

/-- Runtime-adapter calls, recorded in the trace in program order. -/
inductive Evt where
  | createC (cid : Nat)
  | pauseC (cid : Nat)
  | unpauseC (cid : Nat)
  | destroyC (cid : Nat)
deriving DecidableEq, Repr

/-- Fault schedule for one container: which adapter calls on it raise. -/
structure Faults where
  unpauseFails : Bool
  removeFails : Bool
deriving DecidableEq, Repr

/-- The fault-free schedule. -/
def noFaults : Nat → Faults := fun _ => ⟨false, false⟩

/-- Program state of the store. -/
structure St where
  /-- `_ContainerRegistry._registry`: key to container identity, insertion order. -/
  registry : List (Key × Nat)
  /-- Live containers and their paused flag (`true` = paused). -/
  containers : List (Nat × Bool)
  /-- Allocator for fresh container identities. -/
  nextId : Nat
  /-- Shared volume file contents. -/
  volume : Volume
  /-- Trace of runtime-adapter calls made so far. -/
  log : List Evt
deriving DecidableEq, Repr

/-- The state right after `Map()` construction: empty registry, no
containers, truncated volume file. -/
def St.init : St := ⟨[], [], 0, Volume.empty, []⟩

/-- The observable store state: everything but the adapter-call trace. -/
def obs (s : St) : List (Key × Nat) × List (Nat × Bool) × Nat × Volume :=
  (s.registry, s.containers, s.nextId, s.volume)

/-- `_ContainerRegistry.get`: non-failing lookup (`dict.get(key, None)`). -/
def registryLookup (k : Key) (s : St) : Option Nat :=
  s.registry.lookup k

/-- `_ContainerRegistry.add`: `self._registry[c_key] = container`.  A dict
assignment overwrites in place when the key exists and appends otherwise. -/
def registryAdd (k : Key) (cid : Nat) (s : St) : St :=
  { s with registry :=
      if s.registry.any (fun p => p.1 == k) then
        s.registry.map (fun p => if p.1 == k then (p.1, cid) else p)
      else
        s.registry ++ [(k, cid)] }

/-- `del self._registry[c_key]`. -/
def delRegistry (k : Key) (s : St) : St :=
  { s with registry := s.registry.filter (fun p => !(p.1 == k)) }

/-- Paused flag of container `cid`, `none` if it is not live. -/
def pausedOf (cid : Nat) (s : St) : Option Bool :=
  s.containers.lookup cid

/-- Successful `container.unpause()`: clear the paused flag, log the call. -/
def contUnpause (cid : Nat) (s : St) : St :=
  { s with containers := s.containers.map (fun p => if p.1 == cid then (p.1, false) else p),
           log := s.log ++ [Evt.unpauseC cid] }

/-- Successful `container.pause()`: set the paused flag, log the call. -/
def contPause (cid : Nat) (s : St) : St :=
  { s with containers := s.containers.map (fun p => if p.1 == cid then (p.1, true) else p),
           log := s.log ++ [Evt.pauseC cid] }

/-- Successful `container.remove(force=True)`: destroy the container. -/
def contDestroy (cid : Nat) (s : St) : St :=
  { s with containers := s.containers.filter (fun p => !(p.1 == cid)),
           log := s.log ++ [Evt.destroyC cid] }

/-- `container.unpause()` under the fault schedule. -/
def contUnpauseOp (faults : Nat → Faults) (cid : Nat) (s : St) :
    Except PyErr Unit × St :=
  if (faults cid).unpauseFails then (Except.error PyErr.dockerUnpauseError, s)
  else (Except.ok (), contUnpause cid s)

/-- `container.remove(force=True)` under the fault schedule. -/
def contRemoveOp (faults : Nat → Faults) (cid : Nat) (s : St) :
    Except PyErr Unit × St :=
  if (faults cid).removeFails then (Except.error PyErr.dockerRemoveError, s)
  else (Except.ok (), contDestroy cid s)

/-- `_ContainerRegistry.remove`:

    try:
        self._registry[c_key].unpause()
    finally:
        self._registry[c_key].remove(force=True)
        del self._registry[c_key]

On a missing key the `try` body raises `KeyError`, and the `finally` body
raises `KeyError` again at its own indexing, which replaces the pending
exception; `del` is never reached and the state is unchanged.  On a present
key, the `finally` block always runs: if the force-remove raises, its error
replaces any pending unpause error and the `del` is skipped; otherwise the
entry is deleted and a pending unpause error propagates. -/
def registry_remove (faults : Nat → Faults) (k : Key) (s : St) :
    Except PyErr Unit × St :=
  match registryLookup k s with
  | none => (Except.error PyErr.keyError, s)
  | some cid =>
    let r1 := contUnpauseOp faults cid s
    let r2 := contRemoveOp faults cid r1.2
    match r2.1 with
    | Except.error e => (Except.error e, r2.2)
    | Except.ok _ => (r1.1, delRegistry k r2.2)

/-- The loop body of `_ContainerRegistry.__exit__`: call `remove` on each
snapshotted key in order; a raised exception aborts the remaining
iterations and propagates (the `for` loop has no exception handler). -/
def removeAll (faults : Nat → Faults) : List Key → St → Except PyErr Unit × St
  | [], s => (Except.ok (), s)
  | k :: ks, s =>
    let r := registry_remove faults k s
    match r.1 with
    | Except.ok _ => removeAll faults ks r.2
    | Except.error e => (Except.error e, r.2)

/-- `_ContainerRegistry.__exit__` (inherited by `Map`): snapshot the
current keys, then `remove` each one. -/
def registry_exit (faults : Nat → Faults) (s : St) : Except PyErr Unit × St :=
  removeAll faults (s.registry.map Prod.fst) s

/-- Error message of `block_container_for_ctx` for a missing key. -/
def missingMsg (k : Key) : String := "couldn\x27t find container " ++ k

/-- `_ContainerRegistry.block_container_for_ctx`: look the key up and hand
back the container the `_CallbackCtxManager` will drive (modelled by its
identity); raise `ContainerRegistryError` when the key is absent. -/
def block_container_for_ctx (k : Key) (s : St) : Except PyErr Nat :=
  match registryLookup k s with
  | some cid => Except.ok cid
  | none => Except.error (PyErr.containerRegistryError (missingMsg k))

/-- `with self._registry.block_container_for_ctx(key): body` — the
`_CallbackCtxManager` protocol: `__enter__` runs `container.unpause()`; if
that raises, the body and `__exit__` never run.  Otherwise the body runs,
then `__exit__` runs `container.pause()` unconditionally; since `pause()`
returns `None` (falsy), an exception from the body propagates. -/
def blockAndRun {α : Type} (faults : Nat → Faults) (k : Key)
    (body : St → Except PyErr α × St) (s : St) : Except PyErr α × St :=
  match block_container_for_ctx k s with
  | Except.error e => (Except.error e, s)
  | Except.ok cid =>
    let r1 := contUnpauseOp faults cid s
    match r1.1 with
    | Except.error e => (Except.error e, r1.2)
    | Except.ok _ =>
      let r := body r1.2
      (r.1, contPause cid r.2)

/-- `_ContainerController._add_container`: run a fresh container (running,
hence unpaused) with the shared volume bind-mounted, pause it, then
register it under the key.  Modelled infallible (no fault point is needed
by the claims: a failure before `registry.add` leaves the registry
untouched). -/
def add_container (k : Key) (s : St) : St :=
  let cid := s.nextId
  let s1 : St :=
    { s with containers := s.containers ++ [(cid, false)],
             nextId := cid + 1,
             log := s.log ++ [Evt.createC cid] }
  registryAdd k cid (contPause cid s1)

/-- Body of the `with` in `_set_container_value`: `open(path, "wb")`
truncates the volume, then `pickle.dump` writes the value or raises,
leaving truncated/partial contents. -/
def dumpBody (v : Val) (s : St) : Except PyErr Unit × St :=
  if v.picklable then (Except.ok (), { s with volume := Volume.stored v })
  else (Except.error PyErr.picklingError, { s with volume := Volume.corrupt })

/-- Body of the `with` in `_get_container_value`: `pickle.load` reads the
volume back, raising on empty or partial contents. -/
def loadBody (s : St) : Except PyErr Val × St :=
  match s.volume with
  | Volume.stored v => (Except.ok v, s)
  | _ => (Except.error PyErr.unpicklingError, s)

/-- The tail of `_set_container_value` common to both branches of its
`if`: create and register a fresh paused container for the key, then write
the value under the unpause/pause bracket. -/
def setFresh (faults : Nat → Faults) (k : Key) (v : Val) (s : St) :
    Except PyErr Unit × St :=
  blockAndRun faults k (dumpBody v) (add_container k s)

/-- `_ContainerController._set_container_value` (= `Map.__setitem__`):
evict any existing container for the key via `registry.remove` (errors
propagate), create and register a fresh paused container, then write the
value under the unpause/pause bracket. -/
def set_container_value (faults : Nat → Faults) (k : Key) (v : Val) (s : St) :
    Except PyErr Unit × St :=
  match registryLookup k s with
  | some _ =>
    let r := registry_remove faults k s
    match r.1 with
    | Except.error e => (Except.error e, r.2)
    | Except.ok _ => setFresh faults k v r.2
  | none => setFresh faults k v s

/-- `_ContainerController._get_container_value` (= `Map.__getitem__`):
read the volume back under the unpause/pause bracket. -/
def get_container_value (faults : Nat → Faults) (k : Key) (s : St) :
    Except PyErr Val × St :=
  blockAndRun faults k loadBody s

/-- `_ContainerController._remove_container` (= `Map.__delitem__`). -/
def remove_container (faults : Nat → Faults) (k : Key) (s : St) :
    Except PyErr Unit × St :=
  registry_remove faults k s

/-! ### Python object model for the singleton discipline

`_ContainerRegistry.__new__` implements an (imperfect) singleton:

    if not isinstance(cls._instance, cls):
        cls._instance = object.__new__(cls, *args, **kwargs)
    return cls._instance

`cls._instance` is looked up through the class hierarchy (`Map` inherits
from `_ContainerRegistry`) and assigned on `cls` itself, while the backing
`_registry` dict is a class attribute of `_ContainerRegistry` that no code
ever shadows with an instance attribute, so every instance of either class
reads and writes the same dict. -/

/-- The two classes involved: `_ContainerRegistry` and its subclass `Map`. -/
inductive PyClass where
  | registryClass
  | mapClass
deriving DecidableEq, Repr

/-- A Python object: its class, plus its own `_registry` attribute when the
instance dict shadows the class attribute.  No code in the source ever
assigns `self._registry` on a registry or `Map` instance, so objects are
allocated with `none` and attribute lookup falls through to the class. -/
structure PyObj where
  cls : PyClass
  ownRegistry : Option (List (Key × Nat))
deriving DecidableEq, Repr

/-- Interpreter state for the fragment relevant to the singleton claim. -/
structure ObjState where
  /-- Allocator for object identities. -/
  nextObj : Nat
  /-- Allocated objects by identity. -/
  objs : List (Nat × PyObj)
  /-- The slot holding the value of the class attribute
  `_ContainerRegistry._instance` (`none` = still the class-body `None`). -/
  regInstance : Option Nat
  /-- The slot holding `Map._instance` once `Map.__new__` assigns it,
  shadowing the base class attribute. -/
  mapInstance : Option Nat
  /-- The class attribute `_ContainerRegistry._registry`. -/
  classRegistry : List (Key × Nat)
deriving DecidableEq, Repr

/-- Process start: no objects, `_instance = None`, empty `_registry`. -/
def ObjState.init : ObjState := ⟨0, [], none, none, []⟩

/-- `isinstance(obj, cls)`: objects of both classes are instances of
`_ContainerRegistry`; only `Map` objects are instances of `Map`. `None`
or a dangling reference is not an instance of anything. -/
def isinst (st : ObjState) (i : Nat) (c : PyClass) : Bool :=
  match st.objs.lookup i with
  | none => false
  | some o =>
    match c with
    | PyClass.registryClass => true
    | PyClass.mapClass => o.cls == PyClass.mapClass

/-- `object.__new__(cls)`: a fresh object with an empty instance dict. -/
def allocObj (c : PyClass) (st : ObjState) : Nat × ObjState :=
  (st.nextObj,
    { st with nextObj := st.nextObj + 1,
              objs := st.objs ++ [(st.nextObj, ⟨c, none⟩)] })

/-- `_ContainerRegistry.__new__` invoked with `cls = _ContainerRegistry`:
read `cls._instance` (the base-class slot), and when it is not an instance
of the class, allocate a fresh object and store it there. -/
def registryNew (st : ObjState) : Nat × ObjState :=
  match st.regInstance with
  | some i =>
    if isinst st i PyClass.registryClass then (i, st)
    else
      let r := allocObj PyClass.registryClass st
      (r.1, { r.2 with regInstance := some r.1 })
  | none =>
    let r := allocObj PyClass.registryClass st
    (r.1, { r.2 with regInstance := some r.1 })

/-- `_ContainerRegistry()`: `__new__` then the inherited no-op `__init__`. -/
def constructRegistry (st : ObjState) : Nat × ObjState := registryNew st

/-- `_ContainerRegistry.__new__` invoked with `cls = Map`: `cls._instance`
reads `Map.__dict__` first and falls back to the base class slot, and the
assignment `cls._instance = …` writes `Map.__dict__`. -/
def mapNew (st : ObjState) : Nat × ObjState :=
  match st.mapInstance.orElse (fun _ => st.regInstance) with
  | some i =>
    if isinst st i PyClass.mapClass then (i, st)
    else
      let r := allocObj PyClass.mapClass st
      (r.1, { r.2 with mapInstance := some r.1 })
  | none =>
    let r := allocObj PyClass.mapClass st
    (r.1, { r.2 with mapInstance := some r.1 })

/-- `Map()`: `Map.__new__`, then `Map.__init__`, whose
`_ContainerController.from_env()` constructs `_ContainerRegistry()` for
the controller's `_registry` field. -/
def constructMap (st : ObjState) : Nat × ObjState :=
  let r := mapNew st
  (r.1, (constructRegistry r.2).2)

/-- Dict assignment `d[k] = cid` (overwrite in place or append). -/
def assocSet (k : Key) (cid : Nat) (d : List (Key × Nat)) : List (Key × Nat) :=
  if d.any (fun p => p.1 == k) then d.map (fun p => if p.1 == k then (p.1, cid) else p)
  else d ++ [(k, cid)]

/-- Attribute lookup `obj._registry`: the instance's own dict when it has
one (never the case in the source), else the shared class attribute. -/
def regDictOf (st : ObjState) (i : Nat) : List (Key × Nat) :=
  match st.objs.lookup i with
  | some o => o.ownRegistry.getD st.classRegistry
  | none => st.classRegistry

/-- `self._registry[c_key] = container` through instance `i`: mutate the
dict that attribute lookup on `i` resolves to. -/
def regAddVia (st : ObjState) (i : Nat) (k : Key) (cid : Nat) : ObjState :=
  match st.objs.lookup i with
  | some o =>
    match o.ownRegistry with
    | some d =>
      { st with objs := st.objs.map (fun p =>
          if p.1 == i then (p.1, ⟨o.cls, some (assocSet k cid d)⟩) else p) }
    | none => { st with classRegistry := assocSet k cid st.classRegistry }
  | none => st

/-- `self._registry.get(c_key)` through instance `i`. -/
def regLookupVia (st : ObjState) (i : Nat) (k : Key) : Option Nat :=
  (regDictOf st i).lookup k

/-! ### Concrete scenario states used by counterexamples and witnesses -/

/-- Fault schedule that makes `unpause` fail on container `0` only. -/
def faultsUnp0 : Nat → Faults := fun n => if n == 0 then ⟨true, false⟩ else ⟨false, false⟩

/-- Fault schedule that makes `remove(force=True)` fail on container `0` only. -/
def faultsRem0 : Nat → Faults := fun n => if n == 0 then ⟨false, true⟩ else ⟨false, false⟩

/-- Two keys written; the write to `"a"` failed at the guard's unpause, so
container `0` stays registered and paused, and `"b"` holds container `1`. -/
def stTwoKeys : St :=
  (set_container_value faultsUnp0 "b" ⟨2, true⟩
    (set_container_value faultsUnp0 "a" ⟨1, true⟩ St.init).2).2

/-- One key `"k"` written successfully under the `faultsRem0` schedule
(container `0`, paused, value stored). -/
def stOneKeyRem0 : St := (set_container_value faultsRem0 "k" ⟨1, true⟩ St.init).2

/-- One key `"k"` written successfully with no faults (container `0`). -/
def demoSt : St := (set_container_value noFaults "k" ⟨1, true⟩ St.init).2

/-- Two keys written successfully with no faults. -/
def demoSt2 : St :=
  (set_container_value noFaults "b" ⟨2, true⟩
    (set_container_value noFaults "a" ⟨1, true⟩ St.init).2).2

/-- Object-model state after the first `_ContainerRegistry()`. -/
def objSt1 : ObjState := (constructRegistry ObjState.init).2

/-- The instance returned by the first `_ContainerRegistry()`. -/
def regObj : Nat := (constructRegistry ObjState.init).1

/-- Object-model state after additionally constructing the first `Map()`. -/
def objSt2 : ObjState := (constructMap objSt1).2

/-- The instance returned by the first `Map()`. -/
def mapObj : Nat := (constructMap objSt1).1

/-! ### Association-list lemmas

The registry (keys to container identities) and the container store
(identities to paused flags) are both association lists; these lemmas
describe `lookup` after the pointwise updates the operations perform. -/

section AssocLemmas

set_option linter.unusedSectionVars false

variable {α β : Type} [BEq α] [LawfulBEq α] [DecidableEq α]

theorem lookup_mapSet (a j : α) (x : β) (l : List (α × β)) :
    (l.map (fun p => if p.1 == a then (p.1, x) else p)).lookup j =
      if j = a then (l.lookup a).map (fun _ => x) else l.lookup j := by
  induction l with
  | nil => simp [List.lookup]
  | cons p l ih =>
    rcases p with ⟨b, c⟩
    simp only [List.map_cons]
    cases hba : (b == a : Bool) with
    | true =>
      have hba' : b = a := eq_of_beq hba
      subst hba'
      by_cases hja : j = b
      · subst hja
        simp [List.lookup]
      · simp [List.lookup, beq_false_of_ne hja, hja] at ih ⊢
        exact ih
    | false =>
      have hba' : b ≠ a := fun h => by simp [h] at hba
      by_cases hjb : j = b
      · subst hjb
        simp [List.lookup, fun h => hba' h]
      · by_cases hja : j = a
        · subst hja
          simp [List.lookup, beq_false_of_ne hjb] at ih ⊢
          exact ih
        · simp [List.lookup, beq_false_of_ne hjb, hja] at ih ⊢
          exact ih

theorem lookup_filterNe (a j : α) (l : List (α × β)) :
    (l.filter (fun p => !(p.1 == a))).lookup j =
      if j = a then none else l.lookup j := by
  induction l with
  | nil => simp [List.lookup]
  | cons p l ih =>
    rcases p with ⟨b, c⟩
    simp only [List.filter_cons]
    cases hba : (b == a : Bool) with
    | true =>
      have hba' : b = a := eq_of_beq hba
      subst hba'
      by_cases hja : j = b
      · subst hja
        simp [List.lookup, ih]
      · simp [List.lookup, hja, beq_false_of_ne hja, ih]
    | false =>
      have hba' : b ≠ a := fun h => by simp [h] at hba
      by_cases hjb : j = b
      · subst hjb
        simp [List.lookup, fun h => hba' h]
      · simp [List.lookup, beq_false_of_ne hjb, ih]

theorem lookup_append_of_none (j : α) (l1 l2 : List (α × β))
    (h : l1.lookup j = none) : (l1 ++ l2).lookup j = l2.lookup j := by
  induction l1 with
  | nil => simp
  | cons p l ih =>
    rcases p with ⟨b, c⟩
    by_cases hjb : j = b
    · subst hjb
      simp [List.lookup] at h
    · rw [List.cons_append]
      simp only [List.lookup_cons, beq_false_of_ne hjb] at h ⊢
      exact ih h

theorem lookup_append_of_some (j : α) (x : β) (l1 l2 : List (α × β))
    (h : l1.lookup j = some x) : (l1 ++ l2).lookup j = some x := by
  induction l1 with
  | nil => simp [List.lookup] at h
  | cons p l ih =>
    rcases p with ⟨b, c⟩
    by_cases hjb : j = b
    · subst hjb
      rw [List.cons_append]
      simp only [List.lookup_cons, beq_self_eq_true] at h ⊢
      exact h
    · rw [List.cons_append]
      simp only [List.lookup_cons, beq_false_of_ne hjb] at h ⊢
      exact ih h

theorem any_key_false_iff (a : α) (l : List (α × β)) :
    (l.any (fun p => p.1 == a)) = false ↔ l.lookup a = none := by
  induction l with
  | nil => simp [List.lookup]
  | cons p l ih =>
    rcases p with ⟨b, c⟩
    cases hba : (b == a : Bool) with
    | true =>
      have hba' : b = a := eq_of_beq hba
      subst hba'
      simp [List.lookup]
    | false =>
      have hba' : b ≠ a := fun h => by simp [h] at hba
      simp [List.lookup, hba, beq_false_of_ne (fun h => hba' h.symm), ih]

theorem filter_keyNe_of_not_mem (a : α) (l : List (α × β))
    (h : a ∉ l.map Prod.fst) : (l.filter (fun p => !(p.1 == a))) = l := by
  induction l with
  | nil => rfl
  | cons p l ih =>
    rcases p with ⟨b, c⟩
    simp only [List.map_cons, List.mem_cons, not_or] at h
    have hb : (b == a) = false := beq_false_of_ne fun hba => h.1 hba.symm
    simp [List.filter_cons, hb, ih h.2]

theorem mapSet_mapSet (a : α) (x y : β) (l : List (α × β)) :
    ((l.map (fun p => if p.1 == a then (p.1, y) else p)).map
        (fun p => if p.1 == a then (p.1, x) else p)) =
      l.map (fun p => if p.1 == a then (p.1, x) else p) := by
  rw [List.map_map]
  apply List.map_congr_left
  intro p _
  cases hpa : (p.1 == a : Bool) with
  | true => simp [Function.comp, hpa]
  | false => simp [Function.comp, hpa]

theorem mapSet_id (a : α) (x : β) (l : List (α × β))
    (h : ∀ p ∈ l, p.1 = a → p.2 = x) :
    l.map (fun p => if p.1 == a then (p.1, x) else p) = l := by
  induction l with
  | nil => rfl
  | cons p l ih =>
    have hp : (if (p.1 == a : Bool) then (p.1, x) else p) = p := by
      cases hpa : (p.1 == a : Bool) with
      | true =>
        have := h p (List.mem_cons_self p l) (eq_of_beq hpa)
        simp [Prod.ext_iff, this]
      | false => simp
    have ht : ∀ q ∈ l, q.1 = a → q.2 = x := fun q hq => h q (List.mem_cons_of_mem p hq)
    simp only [List.map_cons, hp, ih ht]

theorem mem_mapSet_eq (a : α) (x : β) (l : List (α × β)) :
    ∀ p ∈ l.map (fun p => if p.1 == a then (p.1, x) else p), p.1 = a → p.2 = x := by
  intro p hp hpa
  rcases List.mem_map.mp hp with ⟨q, _, hq⟩
  cases hqa : (q.1 == a : Bool) with
  | true =>
    rw [← hq]
    simp [hqa]
  | false =>
    have hqa' : q.1 ≠ a := fun h => by simp [h] at hqa
    rw [← hq] at hpa ⊢
    simp [hqa] at hpa ⊢
    exact absurd hpa hqa'

end AssocLemmas

/-! ### Operation-level lemmas -/

@[simp] theorem contPause_registry (cid : Nat) (s : St) :
    (contPause cid s).registry = s.registry := rfl

@[simp] theorem contPause_nextId (cid : Nat) (s : St) :
    (contPause cid s).nextId = s.nextId := rfl

@[simp] theorem contPause_volume (cid : Nat) (s : St) :
    (contPause cid s).volume = s.volume := rfl

@[simp] theorem contUnpause_registry (cid : Nat) (s : St) :
    (contUnpause cid s).registry = s.registry := rfl

@[simp] theorem contUnpause_nextId (cid : Nat) (s : St) :
    (contUnpause cid s).nextId = s.nextId := rfl

@[simp] theorem contUnpause_volume (cid : Nat) (s : St) :
    (contUnpause cid s).volume = s.volume := rfl

@[simp] theorem contDestroy_registry (cid : Nat) (s : St) :
    (contDestroy cid s).registry = s.registry := rfl

@[simp] theorem contDestroy_nextId (cid : Nat) (s : St) :
    (contDestroy cid s).nextId = s.nextId := rfl

@[simp] theorem contDestroy_volume (cid : Nat) (s : St) :
    (contDestroy cid s).volume = s.volume := rfl

@[simp] theorem delRegistry_containers (k : Key) (s : St) :
    (delRegistry k s).containers = s.containers := rfl

@[simp] theorem delRegistry_nextId (k : Key) (s : St) :
    (delRegistry k s).nextId = s.nextId := rfl

@[simp] theorem delRegistry_volume (k : Key) (s : St) :
    (delRegistry k s).volume = s.volume := rfl

@[simp] theorem registryAdd_containers (k : Key) (cid : Nat) (s : St) :
    (registryAdd k cid s).containers = s.containers := rfl

@[simp] theorem registryAdd_nextId (k : Key) (cid : Nat) (s : St) :
    (registryAdd k cid s).nextId = s.nextId := rfl

@[simp] theorem registryAdd_volume (k : Key) (cid : Nat) (s : St) :
    (registryAdd k cid s).volume = s.volume := rfl

theorem registryLookup_contPause (k : Key) (cid : Nat) (s : St) :
    registryLookup k (contPause cid s) = registryLookup k s := rfl

theorem registryLookup_contUnpause (k : Key) (cid : Nat) (s : St) :
    registryLookup k (contUnpause cid s) = registryLookup k s := rfl

theorem registryLookup_contDestroy (k : Key) (cid : Nat) (s : St) :
    registryLookup k (contDestroy cid s) = registryLookup k s := rfl

theorem pausedOf_contPause (cid j : Nat) (s : St) :
    pausedOf j (contPause cid s) =
      if j = cid then (pausedOf cid s).map (fun _ => true) else pausedOf j s :=
  lookup_mapSet cid j true s.containers

theorem pausedOf_contUnpause (cid j : Nat) (s : St) :
    pausedOf j (contUnpause cid s) =
      if j = cid then (pausedOf cid s).map (fun _ => false) else pausedOf j s :=
  lookup_mapSet cid j false s.containers

theorem pausedOf_contDestroy (cid j : Nat) (s : St) :
    pausedOf j (contDestroy cid s) = if j = cid then none else pausedOf j s :=
  lookup_filterNe cid j s.containers

theorem registryLookup_delRegistry (k j : Key) (s : St) :
    registryLookup j (delRegistry k s) = if j = k then none else registryLookup j s :=
  lookup_filterNe k j s.registry

theorem registryLookup_registryAdd (k j : Key) (cid : Nat) (s : St) :
    registryLookup j (registryAdd k cid s) =
      if j = k then some cid else registryLookup j s := by
  unfold registryAdd registryLookup
  cases hany : s.registry.any (fun p => p.1 == k) with
  | true =>
    rw [if_pos rfl]
    rw [lookup_mapSet]
    by_cases hj : j = k
    · subst hj
      cases hl : s.registry.lookup j with
      | none =>
        rw [← any_key_false_iff] at hl
        rw [hany] at hl
        cases hl
      | some w => simp [hl]
    · simp [hj]
  | false =>
    rw [if_neg Bool.false_ne_true]
    have hnone : s.registry.lookup k = none := (any_key_false_iff k s.registry).mp hany
    by_cases hj : j = k
    · subst hj
      rw [lookup_append_of_none _ _ _ hnone]
      simp [List.lookup]
    · cases hl : s.registry.lookup j with
      | some w =>
        rw [lookup_append_of_some _ _ _ _ hl]
        simp [hj]
      | none =>
        rw [lookup_append_of_none _ _ _ hl]
        simp [List.lookup, beq_false_of_ne hj, hj]

theorem registry_remove_absent (faults : Nat → Faults) (k : Key) (s : St)
    (h : registryLookup k s = none) :
    registry_remove faults k s = (Except.error PyErr.keyError, s) := by
  unfold registry_remove
  rw [h]

theorem registry_remove_ok_of (faults : Nat → Faults) (k : Key) (s : St) (cid : Nat)
    (h : registryLookup k s = some cid)
    (hu : (faults cid).unpauseFails = false)
    (hr : (faults cid).removeFails = false) :
    registry_remove faults k s =
      (Except.ok (), delRegistry k (contDestroy cid (contUnpause cid s))) := by
  simp [registry_remove, h, contUnpauseOp, contRemoveOp, hu, hr]

theorem registry_remove_unpauseFault (faults : Nat → Faults) (k : Key) (s : St) (cid : Nat)
    (h : registryLookup k s = some cid)
    (hu : (faults cid).unpauseFails = true)
    (hr : (faults cid).removeFails = false) :
    registry_remove faults k s =
      (Except.error PyErr.dockerUnpauseError, delRegistry k (contDestroy cid s)) := by
  simp [registry_remove, h, contUnpauseOp, contRemoveOp, hu, hr]

theorem registry_remove_nextId (faults : Nat → Faults) (k : Key) (s : St) :
    (registry_remove faults k s).2.nextId = s.nextId := by
  cases h : registryLookup k s with
  | none => simp [registry_remove, h]
  | some cid =>
    by_cases hu : (faults cid).unpauseFails <;>
      by_cases hr : (faults cid).removeFails <;>
        simp [registry_remove, h, contUnpauseOp, contRemoveOp, hu, hr]

theorem registry_remove_lookup_ne (faults : Nat → Faults) (k j : Key) (s : St)
    (hj : j ≠ k) :
    registryLookup j (registry_remove faults k s).2 = registryLookup j s := by
  cases h : registryLookup k s with
  | none => simp [registry_remove, h]
  | some cid =>
    by_cases hu : (faults cid).unpauseFails <;>
      by_cases hr : (faults cid).removeFails <;>
        simp [registry_remove, h, contUnpauseOp, contRemoveOp, hu, hr,
          registryLookup_delRegistry, registryLookup_contDestroy,
          registryLookup_contUnpause, hj]

theorem registry_remove_result (faults : Nat → Faults) (k : Key) (s : St) :
    (registry_remove faults k s).1 = Except.ok () ∨
    (registry_remove faults k s).1 = Except.error PyErr.keyError ∨
    (registry_remove faults k s).1 = Except.error PyErr.dockerUnpauseError ∨
    (registry_remove faults k s).1 = Except.error PyErr.dockerRemoveError := by
  cases h : registryLookup k s with
  | none => simp [registry_remove, h]
  | some cid =>
    by_cases hu : (faults cid).unpauseFails <;>
      by_cases hr : (faults cid).removeFails <;>
        simp [registry_remove, h, contUnpauseOp, contRemoveOp, hu, hr]

theorem blockAndRun_absent {α : Type} (faults : Nat → Faults) (k : Key)
    (body : St → Except PyErr α × St) (s : St) (h : registryLookup k s = none) :
    blockAndRun faults k body s =
      (Except.error (PyErr.containerRegistryError (missingMsg k)), s) := by
  simp [blockAndRun, block_container_for_ctx, h]

theorem blockAndRun_unpauseFault {α : Type} (faults : Nat → Faults) (k : Key)
    (body : St → Except PyErr α × St) (s : St) (cid : Nat)
    (h : registryLookup k s = some cid)
    (hu : (faults cid).unpauseFails = true) :
    blockAndRun faults k body s = (Except.error PyErr.dockerUnpauseError, s) := by
  simp [blockAndRun, block_container_for_ctx, h, contUnpauseOp, hu]

theorem blockAndRun_ok {α : Type} (faults : Nat → Faults) (k : Key)
    (body : St → Except PyErr α × St) (s : St) (cid : Nat)
    (h : registryLookup k s = some cid)
    (hu : (faults cid).unpauseFails = false) :
    blockAndRun faults k body s =
      ((body (contUnpause cid s)).1, contPause cid (body (contUnpause cid s)).2) := by
  simp [blockAndRun, block_container_for_ctx, h, contUnpauseOp, hu]

theorem add_container_nextId (k : Key) (s : St) :
    (add_container k s).nextId = s.nextId + 1 := rfl

theorem add_container_volume (k : Key) (s : St) :
    (add_container k s).volume = s.volume := rfl

theorem add_container_lookup (k j : Key) (s : St) :
    registryLookup j (add_container k s) =
      if j = k then some s.nextId else registryLookup j s := by
  unfold add_container
  rw [registryLookup_registryAdd]
  rfl

theorem add_container_paused_self (k : Key) (s : St) :
    pausedOf s.nextId (add_container k s) = some true := by
  show ((s.containers ++ [(s.nextId, false)]).map
      (fun p => if p.1 == s.nextId then (p.1, true) else p)).lookup s.nextId = some true
  rw [lookup_mapSet]
  simp only [if_pos rfl]
  cases hl : s.containers.lookup s.nextId with
  | some b =>
    rw [lookup_append_of_some _ _ _ _ hl]
    rfl
  | none =>
    rw [lookup_append_of_none _ _ _ hl]
    simp [List.lookup]

theorem add_container_containers_shape (k : Key) (s : St) :
    (add_container k s).containers =
      (s.containers ++ [(s.nextId, false)]).map
        (fun p => if p.1 == s.nextId then (p.1, true) else p) := rfl

theorem dumpBody_picklable (v : Val) (s : St) (h : v.picklable = true) :
    dumpBody v s = (Except.ok (), { s with volume := Volume.stored v }) := by
  simp [dumpBody, h]

theorem dumpBody_unpicklable (v : Val) (s : St) (h : v.picklable = false) :
    dumpBody v s = (Except.error PyErr.picklingError, { s with volume := Volume.corrupt }) := by
  simp [dumpBody, h]

theorem loadBody_state (s : St) : (loadBody s).2 = s := by
  cases hv : s.volume <;> simp [loadBody, hv]

theorem loadBody_stored (s : St) (v : Val) (h : s.volume = Volume.stored v) :
    loadBody s = (Except.ok v, s) := by
  simp [loadBody, h]

theorem loadBody_corrupt (s : St) (h : s.volume = Volume.corrupt) :
    loadBody s = (Except.error PyErr.unpicklingError, s) := by
  simp [loadBody, h]

@[simp] theorem registryLookup_setVolume (k : Key) (V : Volume) (s : St) :
    registryLookup k { s with volume := V } = registryLookup k s := rfl

@[simp] theorem pausedOf_setVolume (cid : Nat) (V : Volume) (s : St) :
    pausedOf cid { s with volume := V } = pausedOf cid s := rfl

/-! ### Composite lemmas for set, get and teardown -/

theorem setFresh_eval_ok (faults : Nat → Faults) (k : Key) (v : Val) (s : St)
    (hu : (faults s.nextId).unpauseFails = false) (hp : v.picklable = true) :
    setFresh faults k v s =
      (Except.ok (), contPause s.nextId
        { contUnpause s.nextId (add_container k s) with volume := Volume.stored v }) := by
  unfold setFresh
  rw [blockAndRun_ok faults k (dumpBody v) (add_container k s) s.nextId
      (by rw [add_container_lookup]; simp) hu]
  rw [dumpBody_picklable _ _ hp]

theorem setFresh_eval_failp (faults : Nat → Faults) (k : Key) (v : Val) (s : St)
    (hu : (faults s.nextId).unpauseFails = false) (hp : v.picklable = false) :
    setFresh faults k v s =
      (Except.error PyErr.picklingError, contPause s.nextId
        { contUnpause s.nextId (add_container k s) with volume := Volume.corrupt }) := by
  unfold setFresh
  rw [blockAndRun_ok faults k (dumpBody v) (add_container k s) s.nextId
      (by rw [add_container_lookup]; simp) hu]
  rw [dumpBody_unpicklable _ _ hp]

theorem setFresh_ok_inv (faults : Nat → Faults) (k : Key) (v : Val) (s : St)
    (h : (setFresh faults k v s).1 = Except.ok ()) :
    (faults s.nextId).unpauseFails = false ∧ v.picklable = true := by
  cases hu : (faults s.nextId).unpauseFails with
  | true =>
    exfalso
    unfold setFresh at h
    rw [blockAndRun_unpauseFault faults k (dumpBody v) (add_container k s) s.nextId
        (by rw [add_container_lookup]; simp) hu] at h
    exact absurd h (by simp)
  | false =>
    cases hp : v.picklable with
    | true => exact ⟨rfl, rfl⟩
    | false =>
      exfalso
      rw [setFresh_eval_failp faults k v s hu hp] at h
      exact absurd h (by simp)

theorem setFresh_failp_inv (faults : Nat → Faults) (k : Key) (v : Val) (s : St)
    (h : (setFresh faults k v s).1 = Except.error PyErr.picklingError) :
    (faults s.nextId).unpauseFails = false ∧ v.picklable = false := by
  cases hu : (faults s.nextId).unpauseFails with
  | true =>
    exfalso
    unfold setFresh at h
    rw [blockAndRun_unpauseFault faults k (dumpBody v) (add_container k s) s.nextId
        (by rw [add_container_lookup]; simp) hu] at h
    exact absurd h (by simp)
  | false =>
    cases hp : v.picklable with
    | false => exact ⟨rfl, rfl⟩
    | true =>
      exfalso
      rw [setFresh_eval_ok faults k v s hu hp] at h
      exact absurd h (by simp)

theorem setFresh_state_facts (faults : Nat → Faults) (k : Key) (v : Val) (s : St)
    (V : Volume) (r : Except PyErr Unit)
    (heval : setFresh faults k v s =
      (r, contPause s.nextId
        { contUnpause s.nextId (add_container k s) with volume := V })) :
    registryLookup k (setFresh faults k v s).2 = some s.nextId ∧
    (∀ j, j ≠ k → registryLookup j (setFresh faults k v s).2 = registryLookup j s) ∧
    (setFresh faults k v s).2.nextId = s.nextId + 1 ∧
    (setFresh faults k v s).2.volume = V ∧
    pausedOf s.nextId (setFresh faults k v s).2 = some true ∧
    (∀ p ∈ (setFresh faults k v s).2.containers, p.1 = s.nextId → p.2 = true) := by
  rw [heval]
  refine ⟨?_, ?_, ?_, rfl, ?_, ?_⟩
  · show registryLookup k (add_container k s) = some s.nextId
    rw [add_container_lookup]
    simp
  · intro j hj
    show registryLookup j (add_container k s) = registryLookup j s
    rw [add_container_lookup]
    simp [hj]
  · show (add_container k s).nextId = s.nextId + 1
    exact add_container_nextId k s
  · rw [pausedOf_contPause]
    rw [if_pos rfl]
    rw [pausedOf_setVolume, pausedOf_contUnpause, if_pos rfl, add_container_paused_self]
    rfl
  · exact mem_mapSet_eq _ _ _

theorem set_eq_of_absent (faults : Nat → Faults) (k : Key) (v : Val) (s : St)
    (h0 : registryLookup k s = none) :
    set_container_value faults k v s = setFresh faults k v s := by
  unfold set_container_value
  rw [h0]

theorem set_eq_of_evict_ok (faults : Nat → Faults) (k : Key) (v : Val) (s : St)
    (cid : Nat) (h0 : registryLookup k s = some cid)
    (hr : (registry_remove faults k s).1 = Except.ok ()) :
    set_container_value faults k v s = setFresh faults k v (registry_remove faults k s).2 := by
  unfold set_container_value
  rw [h0]
  simp only [hr]

theorem set_eq_of_evict_err (faults : Nat → Faults) (k : Key) (v : Val) (s : St)
    (cid : Nat) (e : PyErr) (h0 : registryLookup k s = some cid)
    (hr : (registry_remove faults k s).1 = Except.error e) :
    set_container_value faults k v s = (Except.error e, (registry_remove faults k s).2) := by
  unfold set_container_value
  rw [h0]
  simp only [hr]

theorem set_ok_facts (faults : Nat → Faults) (k : Key) (v : Val) (s : St)
    (h : (set_container_value faults k v s).1 = Except.ok ()) :
    (faults s.nextId).unpauseFails = false ∧ v.picklable = true ∧
    registryLookup k (set_container_value faults k v s).2 = some s.nextId ∧
    (set_container_value faults k v s).2.nextId = s.nextId + 1 ∧
    (set_container_value faults k v s).2.volume = Volume.stored v ∧
    pausedOf s.nextId (set_container_value faults k v s).2 = some true ∧
    (∀ j, j ≠ k → registryLookup j (set_container_value faults k v s).2 = registryLookup j s) := by
  cases h0 : registryLookup k s with
  | none =>
    rw [set_eq_of_absent faults k v s h0] at h ⊢
    obtain ⟨hu, hp⟩ := setFresh_ok_inv faults k v s h
    obtain F := setFresh_state_facts faults k v s _ _ (setFresh_eval_ok faults k v s hu hp)
    exact ⟨hu, hp, F.1, F.2.2.1, F.2.2.2.1, F.2.2.2.2.1, F.2.1⟩
  | some cid0 =>
    cases hr : (registry_remove faults k s).1 with
    | error e =>
      rw [set_eq_of_evict_err faults k v s cid0 e h0 hr] at h
      exact absurd h (by simp)
    | ok u =>
      cases u
      rw [set_eq_of_evict_ok faults k v s cid0 h0 hr] at h ⊢
      have hn1 : (registry_remove faults k s).2.nextId = s.nextId :=
        registry_remove_nextId faults k s
      obtain ⟨hu, hp⟩ := setFresh_ok_inv faults k v _ h
      rw [hn1] at hu
      obtain F := setFresh_state_facts faults k v (registry_remove faults k s).2 _ _
        (setFresh_eval_ok faults k v _ (by rw [hn1]; exact hu) hp)
      rw [hn1] at F
      refine ⟨hu, hp, F.1, F.2.2.1, F.2.2.2.1, F.2.2.2.2.1, ?_⟩
      intro j hj
      rw [F.2.1 j hj]
      exact registry_remove_lookup_ne faults k j s hj

theorem set_failp_facts (faults : Nat → Faults) (k : Key) (v : Val) (s : St)
    (h : (set_container_value faults k v s).1 = Except.error PyErr.picklingError) :
    (faults s.nextId).unpauseFails = false ∧ v.picklable = false ∧
    registryLookup k (set_container_value faults k v s).2 = some s.nextId ∧
    (set_container_value faults k v s).2.nextId = s.nextId + 1 ∧
    (set_container_value faults k v s).2.volume = Volume.corrupt ∧
    pausedOf s.nextId (set_container_value faults k v s).2 = some true ∧
    (∀ p ∈ (set_container_value faults k v s).2.containers,
        p.1 = s.nextId → p.2 = true) := by
  cases h0 : registryLookup k s with
  | none =>
    rw [set_eq_of_absent faults k v s h0] at h ⊢
    obtain ⟨hu, hp⟩ := setFresh_failp_inv faults k v s h
    obtain F := setFresh_state_facts faults k v s _ _ (setFresh_eval_failp faults k v s hu hp)
    exact ⟨hu, hp, F.1, F.2.2.1, F.2.2.2.1, F.2.2.2.2.1, F.2.2.2.2.2⟩
  | some cid0 =>
    cases hr : (registry_remove faults k s).1 with
    | error e =>
      rw [set_eq_of_evict_err faults k v s cid0 e h0 hr] at h
      have h' : Except.error e = Except.error PyErr.picklingError := h
      injection h' with he
      subst he
      rcases registry_remove_result faults k s with h1 | h1 | h1 | h1 <;>
        rw [h1] at hr <;> exact absurd hr (by simp)
    | ok u =>
      cases u
      rw [set_eq_of_evict_ok faults k v s cid0 h0 hr] at h ⊢
      have hn1 : (registry_remove faults k s).2.nextId = s.nextId :=
        registry_remove_nextId faults k s
      obtain ⟨hu, hp⟩ := setFresh_failp_inv faults k v _ h
      rw [hn1] at hu
      obtain F := setFresh_state_facts faults k v (registry_remove faults k s).2 _ _
        (setFresh_eval_failp faults k v _ (by rw [hn1]; exact hu) hp)
      rw [hn1] at F
      exact ⟨hu, hp, F.1, F.2.2.1, F.2.2.2.1, F.2.2.2.2.1, F.2.2.2.2.2⟩

theorem get_ok_of (faults : Nat → Faults) (k : Key) (s : St) (cid : Nat) (v : Val)
    (h : registryLookup k s = some cid) (hu : (faults cid).unpauseFails = false)
    (hv : s.volume = Volume.stored v) :
    (get_container_value faults k s).1 = Except.ok v := by
  rw [get_container_value, blockAndRun_ok faults k loadBody s cid h hu]
  rw [loadBody_stored _ v (by rw [contUnpause_volume]; exact hv)]

theorem get_corrupt_of (faults : Nat → Faults) (k : Key) (s : St) (cid : Nat)
    (h : registryLookup k s = some cid) (hu : (faults cid).unpauseFails = false)
    (hv : s.volume = Volume.corrupt) :
    (get_container_value faults k s).1 = Except.error PyErr.unpicklingError := by
  rw [get_container_value, blockAndRun_ok faults k loadBody s cid h hu]
  rw [loadBody_corrupt _ (by rw [contUnpause_volume]; exact hv)]

theorem get_obs_of_paused (faults : Nat → Faults) (k : Key) (s : St) (cid : Nat)
    (h : registryLookup k s = some cid) (hu : (faults cid).unpauseFails = false)
    (hall : ∀ p ∈ s.containers, p.1 = cid → p.2 = true) :
    obs (get_container_value faults k s).2 = obs s := by
  rw [get_container_value, blockAndRun_ok faults k loadBody s cid h hu]
  have hcont : (contPause cid (contUnpause cid s)).containers = s.containers := by
    show ((s.containers.map (fun p => if p.1 == cid then (p.1, false) else p)).map
        (fun p => if p.1 == cid then (p.1, true) else p)) = s.containers
    rw [mapSet_mapSet, mapSet_id _ _ _ hall]
  simp [obs, loadBody_state, hcont]

theorem removeAll_clean (faults : Nat → Faults) (l : List (Key × Nat)) :
    ∀ s : St, s.registry = l → (l.map Prod.fst).Nodup →
    (∀ p ∈ l, (faults p.2).unpauseFails = false ∧ (faults p.2).removeFails = false) →
    (removeAll faults (l.map Prod.fst) s).1 = Except.ok () ∧
    (removeAll faults (l.map Prod.fst) s).2.registry = [] := by
  induction l with
  | nil =>
    intro s hreg _ _
    exact ⟨rfl, hreg⟩
  | cons p t ih =>
    intro s hreg hnd hf
    rcases p with ⟨k, cid⟩
    simp only [List.map_cons] at hnd
    have hnd' := List.nodup_cons.mp hnd
    have hlk : registryLookup k s = some cid := by
      rw [registryLookup, hreg]
      simp [List.lookup]
    have hfh := hf (k, cid) (List.mem_cons_self _ _)
    have hrem := registry_remove_ok_of faults k s cid hlk hfh.1 hfh.2
    simp only [List.map_cons, removeAll]
    rw [hrem]
    have hreg1 : (delRegistry k (contDestroy cid (contUnpause cid s))).registry = t := by
      show (contDestroy cid (contUnpause cid s)).registry.filter (fun p => !(p.1 == k)) = t
      rw [contDestroy_registry, contUnpause_registry, hreg]
      rw [List.filter_cons]
      simp only [beq_self_eq_true, Bool.not_true, Bool.false_eq_true, if_neg]
      exact filter_keyNe_of_not_mem k t hnd'.1
    exact ih _ hreg1 hnd'.2 (fun q hq => hf q (List.mem_cons_of_mem _ hq))

theorem setFresh_pause_inv (faults : Nat → Faults) (k : Key) (v : Val) (s : St) :
    ∀ cid', registryLookup k (setFresh faults k v s).2 = some cid' →
      pausedOf cid' (setFresh faults k v s).2 = some true := by
  cases hu : (faults s.nextId).unpauseFails with
  | true =>
    unfold setFresh
    rw [blockAndRun_unpauseFault faults k (dumpBody v) (add_container k s) s.nextId
        (by rw [add_container_lookup]; simp) hu]
    intro cid' hlk
    rw [add_container_lookup] at hlk
    rw [if_pos rfl] at hlk
    injection hlk with h'
    rw [← h']
    exact add_container_paused_self k s
  | false =>
    cases hp : v.picklable with
    | true =>
      obtain F := setFresh_state_facts faults k v s _ _ (setFresh_eval_ok faults k v s hu hp)
      intro cid' hlk
      rw [F.1] at hlk
      injection hlk with h'
      rw [← h']
      exact F.2.2.2.2.1
    | false =>
      obtain F := setFresh_state_facts faults k v s _ _ (setFresh_eval_failp faults k v s hu hp)
      intro cid' hlk
      rw [F.1] at hlk
      injection hlk with h'
      rw [← h']
      exact F.2.2.2.2.1

theorem set_pause_inv (faults : Nat → Faults) (k : Key) (v : Val) (s : St)
    (hrm : ∀ cid, registryLookup k s = some cid → (faults cid).removeFails = false) :
    ∀ cid', registryLookup k (set_container_value faults k v s).2 = some cid' →
      pausedOf cid' (set_container_value faults k v s).2 = some true := by
  cases h0 : registryLookup k s with
  | none =>
    rw [set_eq_of_absent faults k v s h0]
    exact setFresh_pause_inv faults k v s
  | some cid0 =>
    cases hu0 : (faults cid0).unpauseFails with
    | true =>
      have hrem := registry_remove_unpauseFault faults k s cid0 h0 hu0 (hrm cid0 h0)
      rw [set_eq_of_evict_err faults k v s cid0 PyErr.dockerUnpauseError h0 (by rw [hrem])]
      intro cid' hlk
      rw [show (registry_remove faults k s).2 = delRegistry k (contDestroy cid0 s) from
        by rw [hrem]] at hlk
      rw [registryLookup_delRegistry, if_pos rfl] at hlk
      cases hlk
    | false =>
      have hrem := registry_remove_ok_of faults k s cid0 h0 hu0 (hrm cid0 h0)
      rw [set_eq_of_evict_ok faults k v s cid0 h0 (by rw [hrem])]
      exact setFresh_pause_inv faults k v _

theorem get_pause_inv (faults : Nat → Faults) (k : Key) (s : St)
    (hpre : ∀ cid, registryLookup k s = some cid → pausedOf cid s = some true) :
    ∀ cid', registryLookup k (get_container_value faults k s).2 = some cid' →
      pausedOf cid' (get_container_value faults k s).2 = some true := by
  cases h0 : registryLookup k s with
  | none =>
    rw [get_container_value, blockAndRun_absent faults k loadBody s h0]
    intro cid' hlk
    rw [h0] at hlk
    cases hlk
  | some cid =>
    cases hu : (faults cid).unpauseFails with
    | true =>
      rw [get_container_value, blockAndRun_unpauseFault faults k loadBody s cid h0 hu]
      intro cid' hlk
      rw [h0] at hlk
      injection hlk with h'
      rw [← h']
      exact hpre cid h0
    | false =>
      rw [get_container_value, blockAndRun_ok faults k loadBody s cid h0 hu]
      intro cid' hlk
      have hsame : registryLookup k (contPause cid (loadBody (contUnpause cid s)).2) =
          registryLookup k s := by
        rw [registryLookup_contPause, loadBody_state, registryLookup_contUnpause]
      rw [hsame, h0] at hlk
      injection hlk with h'
      rw [← h']
      rw [pausedOf_contPause, if_pos rfl, loadBody_state, pausedOf_contUnpause, if_pos rfl,
        hpre cid h0]
      rfl

theorem registryNew_idem (st : ObjState) :
    (registryNew (registryNew st).2).1 = (registryNew st).1 := by
  have halloc : ∀ t : ObjState,
      (t.objs ++ [(t.nextObj, (⟨PyClass.registryClass, none⟩ : PyObj))]).lookup t.nextObj ≠
        none := by
    intro t
    cases hl : t.objs.lookup t.nextObj with
    | some o =>
      rw [lookup_append_of_some _ _ _ _ hl]
      simp
    | none =>
      rw [lookup_append_of_none _ _ _ hl]
      simp [List.lookup]
  cases h : st.regInstance with
  | some i =>
    cases hin : isinst st i PyClass.registryClass with
    | true => simp [registryNew, h, hin]
    | false =>
      simp only [registryNew, h, hin, allocObj]
      simp only [Bool.false_eq_true, if_false]
      unfold isinst
      cases hl : (st.objs ++ [(st.nextObj, (⟨PyClass.registryClass, none⟩ : PyObj))]).lookup
          st.nextObj with
      | none => exact absurd hl (halloc st)
      | some o => simp [hl]
  | none =>
    simp only [registryNew, h, allocObj]
    unfold isinst
    cases hl : (st.objs ++ [(st.nextObj, (⟨PyClass.registryClass, none⟩ : PyObj))]).lookup
        st.nextObj with
    | none => exact absurd hl (halloc st)
    | some o => simp [hl]

/-! ### The claims -/

/-- Claim C1: for every key K and value V, when `set(K, V)` completes and
no other set intervenes, `get(K)` returns exactly the value that was
written — the pickled payload round-trips through the shared volume. -/
theorem claim_C1 (faults : Nat → Faults) (k : Key) (v : Val) (s : St)
    (h : (set_container_value faults k v s).1 = Except.ok ()) :
    (get_container_value faults k (set_container_value faults k v s).2).1 = Except.ok v := by
  obtain F := set_ok_facts faults k v s h
  exact get_ok_of faults k _ s.nextId v F.2.2.1 F.1 F.2.2.2.2.1

/-- Witness for C1: `set("a", 3)` then `get("a")` returns `3`. -/
theorem claim_C1_witness :
    (set_container_value noFaults "a" ⟨3, true⟩ St.init).1 = Except.ok () ∧
    (get_container_value noFaults "a"
        (set_container_value noFaults "a" ⟨3, true⟩ St.init).2).1 = Except.ok ⟨3, true⟩ :=
  ⟨rfl, claim_C1 noFaults "a" ⟨3, true⟩ St.init rfl⟩

/-- Claim C2: `set(K, V1); set(K, V2); get(K)` returns `V2`, and the
sandbox handle registered for K after the second set is a fresh one,
different from the handle registered after the first set. -/
theorem claim_C2 (faults : Nat → Faults) (k : Key) (v1 v2 : Val) (s : St)
    (h1 : (set_container_value faults k v1 s).1 = Except.ok ())
    (h2 : (set_container_value faults k v2
        (set_container_value faults k v1 s).2).1 = Except.ok ()) :
    (get_container_value faults k
        (set_container_value faults k v2 (set_container_value faults k v1 s).2).2).1 =
      Except.ok v2 ∧
    registryLookup k (set_container_value faults k v2
        (set_container_value faults k v1 s).2).2 ≠
      registryLookup k (set_container_value faults k v1 s).2 := by
  obtain F1 := set_ok_facts faults k v1 s h1
  obtain F2 := set_ok_facts faults k v2 _ h2
  constructor
  · exact get_ok_of faults k _ _ v2 F2.2.2.1 F2.1 F2.2.2.2.2.1
  · rw [F2.2.2.1, F1.2.2.1, F1.2.2.2.1]
    simp

/-- Witness for C2: two writes to `"a"`, handles `0` then `1`. -/
theorem claim_C2_witness :
    (set_container_value noFaults "a" ⟨1, true⟩ St.init).1 = Except.ok () ∧
    (set_container_value noFaults "a" ⟨2, true⟩
        (set_container_value noFaults "a" ⟨1, true⟩ St.init).2).1 = Except.ok () ∧
    ((get_container_value noFaults "a"
        (set_container_value noFaults "a" ⟨2, true⟩
          (set_container_value noFaults "a" ⟨1, true⟩ St.init).2).2).1 = Except.ok ⟨2, true⟩ ∧
      registryLookup "a" (set_container_value noFaults "a" ⟨2, true⟩
          (set_container_value noFaults "a" ⟨1, true⟩ St.init).2).2 ≠
        registryLookup "a" (set_container_value noFaults "a" ⟨1, true⟩ St.init).2) :=
  ⟨rfl, rfl,
    claim_C2 noFaults "a" ⟨1, true⟩ ⟨2, true⟩ St.init rfl rfl⟩

/-- Claim C6: for a key with no registered sandbox, guard acquisition and
`get` fail with `ContainerRegistryError("couldn't find container <key>")`,
and the state — registry included — is left completely unchanged. -/
theorem claim_C6 (faults : Nat → Faults) (k : Key) (s : St)
    (h : registryLookup k s = none) :
    block_container_for_ctx k s =
      Except.error (PyErr.containerRegistryError (missingMsg k)) ∧
    get_container_value faults k s =
      (Except.error (PyErr.containerRegistryError (missingMsg k)), s) := by
  constructor
  · unfold block_container_for_ctx
    rw [h]
  · unfold get_container_value
    exact blockAndRun_absent faults k loadBody s h

/-- Witness for C6 at the initial (empty) state. -/
theorem claim_C6_witness :
    registryLookup "missing" St.init = none ∧
    (block_container_for_ctx "missing" St.init =
        Except.error (PyErr.containerRegistryError (missingMsg "missing")) ∧
      get_container_value noFaults "missing" St.init =
        (Except.error (PyErr.containerRegistryError (missingMsg "missing")), St.init)) :=
  ⟨rfl, claim_C6 noFaults "missing" St.init rfl⟩

/-- Claim C10: every sandbox bind-mounts the same single host volume file,
so distinct keys do not hold distinct values simultaneously: after
`set(K1, V1); set(K2, V2)` with K1 ≠ K2, `get(K1)` returns `V2` — the last
value written to any key — and not `V1`. -/
theorem claim_C10 (faults : Nat → Faults) (k1 k2 : Key) (v1 v2 : Val) (s : St)
    (hk : k1 ≠ k2) (hv : v1 ≠ v2)
    (h1 : (set_container_value faults k1 v1 s).1 = Except.ok ())
    (h2 : (set_container_value faults k2 v2
        (set_container_value faults k1 v1 s).2).1 = Except.ok ()) :
    (get_container_value faults k1
        (set_container_value faults k2 v2
          (set_container_value faults k1 v1 s).2).2).1 = Except.ok v2 ∧
    (get_container_value faults k1
        (set_container_value faults k2 v2
          (set_container_value faults k1 v1 s).2).2).1 ≠ Except.ok v1 := by
  obtain F1 := set_ok_facts faults k1 v1 s h1
  obtain F2 := set_ok_facts faults k2 v2 _ h2
  have hlook : registryLookup k1 (set_container_value faults k2 v2
      (set_container_value faults k1 v1 s).2).2 = some s.nextId := by
    rw [F2.2.2.2.2.2.2 k1 hk, F1.2.2.1]
  have hget := get_ok_of faults k1 _ s.nextId v2 hlook F1.1 F2.2.2.2.2.1
  refine ⟨hget, ?_⟩
  rw [hget]
  intro hc
  injection hc with h'
  exact hv h'.symm

/-- Witness for C10: `set("a", 1); set("b", 2); get("a")` returns `2`. -/
theorem claim_C10_witness :
    ("a" : Key) ≠ "b" ∧ (⟨1, true⟩ : Val) ≠ ⟨2, true⟩ ∧
    (set_container_value noFaults "a" ⟨1, true⟩ St.init).1 = Except.ok () ∧
    (set_container_value noFaults "b" ⟨2, true⟩
        (set_container_value noFaults "a" ⟨1, true⟩ St.init).2).1 = Except.ok () ∧
    ((get_container_value noFaults "a"
        (set_container_value noFaults "b" ⟨2, true⟩
          (set_container_value noFaults "a" ⟨1, true⟩ St.init).2).2).1 = Except.ok ⟨2, true⟩ ∧
      (get_container_value noFaults "a"
        (set_container_value noFaults "b" ⟨2, true⟩
          (set_container_value noFaults "a" ⟨1, true⟩ St.init).2).2).1 ≠ Except.ok ⟨1, true⟩) :=
  ⟨by decide, by decide, rfl, rfl,
    claim_C10 noFaults "a" "b" ⟨1, true⟩ ⟨2, true⟩ St.init
      (by decide) (by decide) rfl rfl⟩

/-- Claim C5: the scoped guard (`_CallbackCtxManager` built by
`block_container_for_ctx`) unpauses on entry and pauses on exit
unconditionally: when the body raises, the body's error still propagates
to the caller (it is not swallowed), the `pause` call is the last adapter
call in the trace, and the sandbox — if it still exists — is re-paused. -/
theorem claim_C5 {α : Type} (faults : Nat → Faults) (k : Key) (s : St) (cid : Nat)
    (body : St → Except PyErr α × St) (e : PyErr)
    (h : registryLookup k s = some cid)
    (hu : (faults cid).unpauseFails = false)
    (hb : (body (contUnpause cid s)).1 = Except.error e) :
    (blockAndRun faults k body s).1 = Except.error e ∧
    (blockAndRun faults k body s).2.log =
      (body (contUnpause cid s)).2.log ++ [Evt.pauseC cid] ∧
    pausedOf cid (blockAndRun faults k body s).2 =
      (pausedOf cid (body (contUnpause cid s)).2).map (fun _ => true) := by
  rw [blockAndRun_ok faults k body s cid h hu]
  refine ⟨hb, rfl, ?_⟩
  rw [pausedOf_contPause, if_pos rfl]

/-- Witness for C5: a failing body inside the guard on a live container. -/
theorem claim_C5_witness :
    registryLookup "k" demoSt = some 0 ∧
    (noFaults 0).unpauseFails = false ∧
    ((fun st => ((Except.error PyErr.unpicklingError : Except PyErr Unit), st))
        (contUnpause 0 demoSt)).1 = Except.error PyErr.unpicklingError ∧
    ((blockAndRun noFaults "k"
        (fun st => ((Except.error PyErr.unpicklingError : Except PyErr Unit), st))
        demoSt).1 = Except.error PyErr.unpicklingError ∧
      (blockAndRun noFaults "k"
        (fun st => ((Except.error PyErr.unpicklingError : Except PyErr Unit), st))
        demoSt).2.log =
        ((fun st => ((Except.error PyErr.unpicklingError : Except PyErr Unit), st))
          (contUnpause 0 demoSt)).2.log ++ [Evt.pauseC 0] ∧
      pausedOf 0 (blockAndRun noFaults "k"
        (fun st => ((Except.error PyErr.unpicklingError : Except PyErr Unit), st))
        demoSt).2 =
        (pausedOf 0 ((fun st => ((Except.error PyErr.unpicklingError : Except PyErr Unit), st))
          (contUnpause 0 demoSt)).2).map (fun _ => true)) :=
  ⟨by decide, by decide, rfl,
    claim_C5 noFaults "k" demoSt 0
      (fun st => ((Except.error PyErr.unpicklingError : Except PyErr Unit), st))
      PyErr.unpicklingError (by decide) (by decide) rfl⟩

/-- Counterexample to C4 as stated: `remove` on an absent key raises the
built-in mapping `KeyError` — from the indexing `self._registry[c_key]` —
which is not a `ContainerRegistryError` ("RegistryError"). -/
theorem cex_C4 :
    (registry_remove noFaults "x" St.init).1 = Except.error PyErr.keyError ∧
    PyErr.isRegistryError PyErr.keyError = false :=
  ⟨rfl, rfl⟩

/-- Claim C4 (amended): `remove(key)` on an absent key fails with the
built-in `KeyError` (not `RegistryError`) and changes nothing; whenever
the key is present, the destructive step — force-remove of the sandbox
and deletion of the registry entry — runs via the `finally` block even if
the preceding unpause attempt raised, provided the force-remove itself
does not also fail. -/
theorem claim_C4 (faults : Nat → Faults) (k : Key) (s : St) (cid : Nat)
    (h : registryLookup k s = some cid)
    (hr : (faults cid).removeFails = false) :
    registryLookup k (registry_remove faults k s).2 = none ∧
    pausedOf cid (registry_remove faults k s).2 = none ∧
    ((faults cid).unpauseFails = true →
      (registry_remove faults k s).1 = Except.error PyErr.dockerUnpauseError) := by
  cases hu : (faults cid).unpauseFails with
  | true =>
    rw [registry_remove_unpauseFault faults k s cid h hu hr]
    refine ⟨?_, ?_, fun _ => rfl⟩
    · rw [registryLookup_delRegistry, if_pos rfl]
    · show pausedOf cid (contDestroy cid s) = none
      rw [pausedOf_contDestroy, if_pos rfl]
  | false =>
    rw [registry_remove_ok_of faults k s cid h hu hr]
    refine ⟨?_, ?_, fun hc => Bool.noConfusion hc⟩
    · rw [registryLookup_delRegistry, if_pos rfl]
    · show pausedOf cid (contDestroy cid (contUnpause cid s)) = none
      rw [pausedOf_contDestroy, if_pos rfl]

/-- Witness for C4 (amended): removal with a failing unpause still deletes
the entry and destroys the sandbox. -/
theorem claim_C4_witness :
    registryLookup "k" stOneKeyRem0 = some 0 ∧
    (faultsUnp0 0).removeFails = false ∧
    (registryLookup "k" (registry_remove faultsUnp0 "k" stOneKeyRem0).2 = none ∧
      pausedOf 0 (registry_remove faultsUnp0 "k" stOneKeyRem0).2 = none ∧
      ((faultsUnp0 0).unpauseFails = true →
        (registry_remove faultsUnp0 "k" stOneKeyRem0).1 =
          Except.error PyErr.dockerUnpauseError)) :=
  ⟨by decide, by decide, claim_C4 faultsUnp0 "k" stOneKeyRem0 0 (by decide) (by decide)⟩

/-- Claim C9: when `set(K, V)` fails during pickling, the fresh sandbox
for K stays registered and paused; a subsequent failed `get(K)` leaves the
registry, container set, allocator and volume unchanged; and the caller
recovers with `delete(K)` (which succeeds and unregisters the key) or with
a new successful `set(K, V2)`. -/
theorem claim_C9 (faults : Nat → Faults) (k : Key) (v v2 : Val) (s : St)
    (hfail : (set_container_value faults k v s).1 = Except.error PyErr.picklingError)
    (hrm : (faults s.nextId).removeFails = false)
    (hpk : v2.picklable = true)
    (hu2 : (faults (s.nextId + 1)).unpauseFails = false) :
    registryLookup k (set_container_value faults k v s).2 = some s.nextId ∧
    pausedOf s.nextId (set_container_value faults k v s).2 = some true ∧
    (get_container_value faults k (set_container_value faults k v s).2).1 =
      Except.error PyErr.unpicklingError ∧
    obs (get_container_value faults k (set_container_value faults k v s).2).2 =
      obs (set_container_value faults k v s).2 ∧
    (registry_remove faults k (set_container_value faults k v s).2).1 = Except.ok () ∧
    registryLookup k (registry_remove faults k (set_container_value faults k v s).2).2 =
      none ∧
    (set_container_value faults k v2 (set_container_value faults k v s).2).1 =
      Except.ok () := by
  obtain F := set_failp_facts faults k v s hfail
  have hrem := registry_remove_ok_of faults k _ s.nextId F.2.2.1 F.1 hrm
  refine ⟨F.2.2.1, F.2.2.2.2.2.1, ?_, ?_, ?_, ?_, ?_⟩
  · exact get_corrupt_of faults k _ s.nextId F.2.2.1 F.1 F.2.2.2.2.1
  · exact get_obs_of_paused faults k _ s.nextId F.2.2.1 F.1 F.2.2.2.2.2.2
  · rw [hrem]
  · rw [hrem]
    rw [registryLookup_delRegistry, if_pos rfl]
  · rw [set_eq_of_evict_ok faults k v2 _ s.nextId F.2.2.1 (by rw [hrem])]
    have hn : (registry_remove faults k (set_container_value faults k v s).2).2.nextId =
        s.nextId + 1 := by
      rw [registry_remove_nextId]
      exact F.2.2.2.1
    rw [setFresh_eval_ok faults k v2 _ (by rw [hn]; exact hu2) hpk]

/-- Witness for C9: `set("k", unpicklable)` fails, then the key recovers. -/
theorem claim_C9_witness :
    (set_container_value noFaults "k" ⟨9, false⟩ St.init).1 =
      Except.error PyErr.picklingError ∧
    (noFaults St.init.nextId).removeFails = false ∧
    (⟨5, true⟩ : Val).picklable = true ∧
    (noFaults (St.init.nextId + 1)).unpauseFails = false ∧
    (registryLookup "k" (set_container_value noFaults "k" ⟨9, false⟩ St.init).2 =
        some St.init.nextId ∧
      pausedOf St.init.nextId (set_container_value noFaults "k" ⟨9, false⟩ St.init).2 =
        some true ∧
      (get_container_value noFaults "k"
          (set_container_value noFaults "k" ⟨9, false⟩ St.init).2).1 =
        Except.error PyErr.unpicklingError ∧
      obs (get_container_value noFaults "k"
          (set_container_value noFaults "k" ⟨9, false⟩ St.init).2).2 =
        obs (set_container_value noFaults "k" ⟨9, false⟩ St.init).2 ∧
      (registry_remove noFaults "k"
          (set_container_value noFaults "k" ⟨9, false⟩ St.init).2).1 = Except.ok () ∧
      registryLookup "k" (registry_remove noFaults "k"
          (set_container_value noFaults "k" ⟨9, false⟩ St.init).2).2 = none ∧
      (set_container_value noFaults "k" ⟨5, true⟩
          (set_container_value noFaults "k" ⟨9, false⟩ St.init).2).1 = Except.ok ()) :=
  ⟨rfl, by decide, by decide, by decide,
    claim_C9 noFaults "k" ⟨9, false⟩ ⟨5, true⟩ St.init rfl (by decide) (by decide) (by decide)⟩

/-- Counterexample to C3 as stated: with keys `"a"` and `"b"` registered
and a Docker unpause failure on `"a"`'s container, scope exit removes
`"a"` (the `finally` block still deletes it) but the raised error aborts
the uncaught `for` loop in `__exit__`, leaving `"b"` registered: the
registry is not empty after scope exit. -/
theorem cex_C3 :
    (registry_exit faultsUnp0 stTwoKeys).2.registry = [("b", 1)] ∧
    (registry_exit faultsUnp0 stTwoKeys).2.registry ≠ [] ∧
    (registry_exit faultsUnp0 stTwoKeys).1 = Except.error PyErr.dockerUnpauseError :=
  ⟨by decide, by decide, rfl⟩

/-- Claim C3 (amended): after the facade's scope exits the registry is
empty provided no individual removal raised; when the removal of one key
raises, the error propagates out of `__exit__` and aborts the teardown
loop, so keys after the failing one in snapshot order stay registered. -/
theorem claim_C3 (faults : Nat → Faults) (s : St)
    (hnd : (s.registry.map Prod.fst).Nodup)
    (hf : ∀ p ∈ s.registry,
      (faults p.2).unpauseFails = false ∧ (faults p.2).removeFails = false) :
    (registry_exit faults s).1 = Except.ok () ∧
    (registry_exit faults s).2.registry = [] := by
  unfold registry_exit
  exact removeAll_clean faults s.registry s rfl hnd hf

/-- Witness for C3 (amended): two keys, fault-free teardown empties the
registry. -/
theorem claim_C3_witness :
    (demoSt2.registry.map Prod.fst).Nodup ∧
    (∀ p ∈ demoSt2.registry,
      (noFaults p.2).unpauseFails = false ∧ (noFaults p.2).removeFails = false) ∧
    ((registry_exit noFaults demoSt2).1 = Except.ok () ∧
      (registry_exit noFaults demoSt2).2.registry = []) :=
  ⟨by decide, by decide, claim_C3 noFaults demoSt2 (by decide) (by decide)⟩

/-- Counterexample to C7 as stated: a second `set` on `"k"` whose eviction
step force-remove fails (after the defensive unpause succeeded) completes
with the old sandbox still registered for `"k"` and unpaused. -/
theorem cex_C7 :
    (set_container_value faultsRem0 "k" ⟨2, true⟩ stOneKeyRem0).1 =
      Except.error PyErr.dockerRemoveError ∧
    registryLookup "k" (set_container_value faultsRem0 "k" ⟨2, true⟩ stOneKeyRem0).2 =
      some 0 ∧
    pausedOf 0 (set_container_value faultsRem0 "k" ⟨2, true⟩ stOneKeyRem0).2 =
      some false :=
  ⟨rfl, by decide, by decide⟩

/-- Claim C7 (amended): immediately after any `set(K, ·)` or `get(K)`
completes — success or failure — the sandbox registered for K, if one
still exists, is paused, provided the registered sandbox was paused
beforehand and the force-remove in `set`'s eviction step does not fail;
when that force-remove fails after a successful defensive unpause, the
old sandbox stays registered and unpaused. -/
theorem claim_C7 (faults : Nat → Faults) (k : Key) (v : Val) (s : St)
    (hpre : ∀ cid, registryLookup k s = some cid → pausedOf cid s = some true)
    (hrm : ∀ cid, registryLookup k s = some cid → (faults cid).removeFails = false) :
    (∀ cid', registryLookup k (set_container_value faults k v s).2 = some cid' →
        pausedOf cid' (set_container_value faults k v s).2 = some true) ∧
    (∀ cid', registryLookup k (get_container_value faults k s).2 = some cid' →
        pausedOf cid' (get_container_value faults k s).2 = some true) :=
  ⟨set_pause_inv faults k v s hrm, get_pause_inv faults k s hpre⟩

/-- Witness for C7 (amended): one live paused container for `"k"`. -/
theorem claim_C7_witness :
    (∀ cid, registryLookup "k" demoSt = some cid → pausedOf cid demoSt = some true) ∧
    (∀ cid, registryLookup "k" demoSt = some cid → (noFaults cid).removeFails = false) ∧
    ((∀ cid', registryLookup "k"
          (set_container_value noFaults "k" ⟨2, true⟩ demoSt).2 = some cid' →
        pausedOf cid' (set_container_value noFaults "k" ⟨2, true⟩ demoSt).2 = some true) ∧
      (∀ cid', registryLookup "k" (get_container_value noFaults "k" demoSt).2 = some cid' →
        pausedOf cid' (get_container_value noFaults "k" demoSt).2 = some true)) := by
  have hpre : ∀ cid, registryLookup "k" demoSt = some cid →
      pausedOf cid demoSt = some true := by
    intro cid hcid
    rw [show registryLookup "k" demoSt = some 0 from by decide] at hcid
    injection hcid with h'
    rw [← h']
    decide
  have hrm : ∀ cid, registryLookup "k" demoSt = some cid →
      (noFaults cid).removeFails = false := fun _ _ => rfl
  exact ⟨hpre, hrm, claim_C7 noFaults "k" ⟨2, true⟩ demoSt hpre hrm⟩

/-- Claim C8: repeated construction of the registry returns the same
instance (from any interpreter state), repeated construction of the `Map`
facade returns the same instance, and both objects observe the single
class-level backing mapping: an entry added through either instance is
seen by a lookup through the other. -/
theorem claim_C8 (k : Key) (cid : Nat) :
    (∀ st : ObjState,
      (constructRegistry (constructRegistry st).2).1 = (constructRegistry st).1) ∧
    (constructMap objSt2).1 = mapObj ∧
    regLookupVia (regAddVia objSt2 regObj k cid) mapObj k = some cid ∧
    regLookupVia (regAddVia objSt2 mapObj k cid) regObj k = some cid := by
  refine ⟨fun st => registryNew_idem st, rfl, ?_, ?_⟩ <;>
    simp [objSt1, objSt2, regObj, mapObj, constructRegistry, constructMap, registryNew,
      mapNew, allocObj, isinst, ObjState.init, regAddVia, regDictOf, regLookupVia,
      assocSet, List.lookup]

end ContainerMap
